import Mathlib

set_option autoImplicit false

/-!
Verification development for the frame-orchestration core of WaterDropEngine
(`src/WaterDropEngine/WdeRender/WdeRenderPipelineInstance.cpp` together with the
headers `CoreInstance.hpp` and `CommandBuffer.hpp`).

The C++ is embedded shallowly:

* the render-pass-graph builder `WdeRenderPipelineInstance::setStructure` becomes a
  pure function returning `Except WdeError (List RenderPass)`;
* the pass/subpass begin/end state machine (`beginRenderPass`, `endRenderPass`,
  `beginRenderSubPass`, `endRenderSubPass`) becomes functions on a
  `PipelineInstance` state returning `Option (Except WdeError ...)`, where `none`
  models undefined behaviour (indexing a `std::vector` out of bounds with
  `operator[]`, e.g. at position `-1`), `some (.error e)` models a thrown
  `WdeException`, and `some (.ok ...)` a normal return;
* the per-frame `tick` becomes a function from the tick's inputs (current frame
  slot, ring length, acquired image index, recorder-running flag, presentation
  result) to the ordered trace of the externally visible operations it performs
  plus the updated frame counter.

Calls into objects whose implementation files are not part of the sources at hand
(`RenderPass::start/end/startSubPass/endSubPass`, the swapchain, the Vulkan queue)
are recorded as trace events carrying exactly the arguments the C++ passes.
-/

namespace WaterDropEngine

/-- Modelled from the spec: the kind of an Attachment Descriptor
(`Color | DepthStencil | PresentationTarget`, §3). The declaring type
`RenderAttachment` lives in a header that is not among the sources; the code of
`setStructure` only tests whether the attachment list is empty. -/
inductive AttachmentKind
  | color
  | depthStencil
  | presentationTarget
deriving DecidableEq, Repr

/-- Modelled from the spec: an Attachment Descriptor — integer binding index,
human-readable label, kind (§3). Format and clear value are carried by the C++
type but never consulted by the code under verification. -/
structure RenderAttachment where
  bindingIndex : Nat
  name : String
  kind : AttachmentKind
deriving DecidableEq, Repr

/-- A subpass declaration. The field `subpassID` embeds `_subpassID`, which is the
only field `setStructure` reads; the attachment index sets are modelled from the
spec (§3, Subpass Description) and from the call sites in the examples. -/
structure RenderSubPassStructure where
  subpassID : Nat
  inputAttachments : List Nat
  outputAttachments : List Nat
deriving DecidableEq, Repr

/-- A render-pass declaration: `_passID` and the ordered `_subPasses` list. -/
structure RenderPassStructure where
  passID : Nat
  subPasses : List RenderSubPassStructure
deriving DecidableEq, Repr

/-- Modelled from the spec: a runtime Render Pass, instantiated 1:1 from a
structure entry plus the shared attachment set
(`std::make_unique<RenderPass>(_attachments, str._subPasses)`); its
implementation file is not among the sources. The state machine only queries
`getSubPassesCount()` and issues begin/end boundaries, recorded as events. -/
structure RenderPass where
  attachments : List RenderAttachment
  subPasses : List RenderSubPassStructure
deriving DecidableEq, Repr

/-- Embeds `RenderPass::getSubPassesCount()`: the number of declared subpasses. -/
def RenderPass.getSubPassesCount (p : RenderPass) : Nat :=
  p.subPasses.length

/-- The distinct `WdeException` throw sites of `WdeRenderPipelineInstance.cpp`,
one constructor per `throw` statement, carrying the values interpolated into the
message string at that site. -/
inductive WdeError
  /-- Thrown by `setStructure` when `_attachments.empty()`: message
  "Tried to create render passes before creating attachments ...". -/
  | missingAttachments
  /-- Thrown by `setStructure` when `iterator != str._passID`: message
  "Missing render pass with ID = iterator.". -/
  | missingPass (expected : Nat)
  /-- Thrown by `setStructure` when `iterator2 != sub._subpassID`: message
  "Missing render subpass with ID = iterator2 in render pass with ID = iterator.". -/
  | missingSubPass (pass : Nat) (expected : Nat)
  /-- Thrown by `beginRenderPass` when `_currentRenderPassID != -1`: message
  "Trying to begin pass index while pass _currentRenderPassID has already began.". -/
  | passAlreadyActive (tried : Nat) (active : Int)
  /-- Thrown by `beginRenderPass` when `index >= _passes.size()`. -/
  | passNotCreated (tried : Nat)
  /-- Thrown by `endRenderPass` when `_currentRenderSubPassID != -1`. -/
  | subPassStillActive (pass : Int) (sub : Int)
  /-- Thrown by `beginRenderSubPass` when `_currentRenderPassID == -1`: message
  "Trying to begin subpass index outside of a render pass.". -/
  | subPassOutsidePass (tried : Nat)
  /-- Thrown by `beginRenderSubPass` when `_currentRenderSubPassID != -1`. -/
  | subPassAlreadyActive (tried : Nat) (active : Int) (pass : Int)
  /-- Thrown by `beginRenderSubPass` when `index >= getSubPassesCount()`. -/
  | subPassNotCreated (tried : Nat)
  /-- Thrown by `endRenderSubPass` when `_currentRenderPassID == -1`: message
  "Trying to end subpass _currentRenderSubPassID outside of a render pass.". -/
  | endSubPassOutsidePass (sub : Int)
  /-- Thrown by `tick` when `presentToQueue` returns a non-success result:
  message "Failed to present swap chain image.". -/
  | presentationFailed
deriving DecidableEq, Repr

/-- Embeds the inner loop of `setStructure` over `str._subPasses`: `iterator2`
starts the walk at `0` and each subpass must declare exactly the running id. -/
def checkSubPasses (passID : Nat) : Nat → List RenderSubPassStructure → Except WdeError Unit
  | _, [] => Except.ok ()
  | iterator2, sub :: rest =>
    if iterator2 ≠ sub.subpassID then
      Except.error (WdeError.missingSubPass passID iterator2)
    else
      checkSubPasses passID (iterator2 + 1) rest

/-- Embeds the outer loop of `setStructure`: walk the declared passes with the
running counter `iterator`, rejecting any pass whose id differs from it, then
validate its subpasses and materialize the runtime pass
(`_passes.push_back(std::make_unique<RenderPass>(_attachments, str._subPasses))`). -/
def buildPasses (attachments : List RenderAttachment) :
    Nat → List RenderPassStructure → Except WdeError (List RenderPass)
  | _, [] => Except.ok []
  | iterator, str :: rest =>
    if iterator ≠ str.passID then
      Except.error (WdeError.missingPass iterator)
    else
      match checkSubPasses iterator 0 str.subPasses with
      | Except.error e => Except.error e
      | Except.ok _ =>
        match buildPasses attachments (iterator + 1) rest with
        | Except.error e => Except.error e
        | Except.ok ps => Except.ok (RenderPass.mk attachments str.subPasses :: ps)

/-- Embeds `WdeRenderPipelineInstance::setStructure`: fail if the attachment set
is empty, otherwise validate pass and subpass id contiguity in declaration order
and return the runtime passes created (starting from an empty `_passes` list,
as on first setup or after `onWindowResized` cleared it). -/
def setStructure (attachments : List RenderAttachment)
    (structureList : List RenderPassStructure) : Except WdeError (List RenderPass) :=
  if attachments.isEmpty then
    Except.error WdeError.missingAttachments
  else
    buildPasses attachments 0 structureList

/-- Calls the state machine makes on runtime `RenderPass` objects
(`start`, `end`, `startSubPass`, `endSubPass`), recorded with the argument
values the C++ passes; the pass id records which `_passes` entry is invoked. -/
inductive PassEvent
  | started (pass : Int)
  | ended (pass : Int)
  | subStarted (pass : Int) (sub : Nat)
  | subEnded (pass : Int) (sub : Int)
deriving DecidableEq, Repr

/-- The mutable state of the pass/subpass machine inside
`WdeRenderPipelineInstance`: the materialized `_passes` list and the two `int`
cursors `_currentRenderPassID` and `_currentRenderSubPassID` (`-1` = none). -/
structure PipelineInstance where
  passes : List RenderPass
  currentRenderPassID : Int
  currentRenderSubPassID : Int
deriving DecidableEq, Repr

/-- Total model of C++ `std::vector::operator[]` at a possibly negative index:
`none` when the access is out of bounds (undefined behaviour in the C++). -/
def getVec {α : Type} (l : List α) (i : Int) : Option α :=
  if i < 0 then none else l.get? i.toNat

/-- Result of one state-machine call: `none` for undefined behaviour
(out-of-bounds vector access), otherwise a thrown error or the successor state
together with the runtime-pass calls issued. -/
abbrev StepResult := Option (Except WdeError (PipelineInstance × List PassEvent))

/-- Embeds `WdeRenderPipelineInstance::beginRenderPass(uint32_t index)`. -/
def beginRenderPass (s : PipelineInstance) (index : Nat) : StepResult :=
  if s.currentRenderPassID ≠ -1 then
    some (Except.error (WdeError.passAlreadyActive index s.currentRenderPassID))
  else if s.passes.length ≤ index then
    some (Except.error (WdeError.passNotCreated index))
  else
    match getVec s.passes (Int.ofNat index) with
    | none => none
    | some _ =>
      some (Except.ok ({ s with currentRenderPassID := Int.ofNat index },
        [PassEvent.started (Int.ofNat index)]))

/-- Embeds `WdeRenderPipelineInstance::endRenderPass()`. Note the source checks
only that no subpass is active; it then indexes `_passes[_currentRenderPassID]`
unconditionally, which is undefined when no pass is active. -/
def endRenderPass (s : PipelineInstance) : StepResult :=
  if s.currentRenderSubPassID ≠ -1 then
    some (Except.error (WdeError.subPassStillActive s.currentRenderPassID s.currentRenderSubPassID))
  else
    match getVec s.passes s.currentRenderPassID with
    | none => none
    | some _ =>
      some (Except.ok ({ s with currentRenderPassID := -1 },
        [PassEvent.ended s.currentRenderPassID]))

/-- Embeds `WdeRenderPipelineInstance::beginRenderSubPass(uint32_t index)`. -/
def beginRenderSubPass (s : PipelineInstance) (index : Nat) : StepResult :=
  if s.currentRenderPassID = -1 then
    some (Except.error (WdeError.subPassOutsidePass index))
  else if s.currentRenderSubPassID ≠ -1 then
    some (Except.error
      (WdeError.subPassAlreadyActive index s.currentRenderSubPassID s.currentRenderPassID))
  else
    match getVec s.passes s.currentRenderPassID with
    | none => none
    | some p =>
      if p.getSubPassesCount ≤ index then
        some (Except.error (WdeError.subPassNotCreated index))
      else
        some (Except.ok ({ s with currentRenderSubPassID := Int.ofNat index },
          [PassEvent.subStarted s.currentRenderPassID index]))

/-- Embeds `WdeRenderPipelineInstance::endRenderSubPass()`. The source checks
only that a pass is active; it then calls
`_passes[_currentRenderPassID]->endSubPass(_currentRenderSubPassID)` with
whatever the subpass cursor holds (possibly `-1`) and resets the cursor. -/
def endRenderSubPass (s : PipelineInstance) : StepResult :=
  if s.currentRenderPassID = -1 then
    some (Except.error (WdeError.endSubPassOutsidePass s.currentRenderSubPassID))
  else
    match getVec s.passes s.currentRenderPassID with
    | none => none
    | some _ =>
      some (Except.ok ({ s with currentRenderSubPassID := -1 },
        [PassEvent.subEnded s.currentRenderPassID s.currentRenderSubPassID]))

/-- The externally visible operations performed by one call of
`WdeRenderPipelineInstance::tick`, in program order. `slot` is always the value
of `renderer.getCurrentFrame()`; fence/semaphore events name the index into the
swapchain's `_inFlightFences` / `_imageAvailableSemaphores` /
`_renderFinishedSemaphores` arrays that the C++ passes. -/
inductive TickEvent
  /-- `renderer.getSwapchain().aquireNextImage()` — updates the active image index. -/
  | acquireImage
  /-- `commandBuffer.begin()` on the slot's command buffer (only when it was not
  running). -/
  | beginRecorder (slot : Nat)
  /-- `render(commandBuffer, *scene)` — the application render callback. -/
  | renderCallback (slot : Nat)
  /-- `vkWaitForFences(..., &getInFlightFences()[fence], VK_TRUE, UINT64_MAX)`. -/
  | fenceWait (fence : Nat)
  /-- `commandBuffer.end()` on the slot's command buffer. -/
  | endRecorder (slot : Nat)
  /-- `commandBuffer.submit(getInFlightFences()[fence],
  getImageAvailableSemaphores()[waitSem], getRenderFinishedSemaphores()[signalSem])`. -/
  | submit (fence : Nat) (waitSem : Nat) (signalSem : Nat)
  /-- `getSwapchain().presentToQueue(getPresentQueue())`. -/
  | present
  /-- `renderer.getCurrentFrame() = (getCurrentFrame() + 1) % getMaxFramesInFlight()`. -/
  | advanceFrame (next : Nat)
deriving DecidableEq, Repr

/-- The data one `tick` call depends on: the ring length
(`CoreInstance::getMaxFramesInFlight`, default 3), the current frame slot
(`CoreInstance::getCurrentFrame`), the image index the swapchain reports after
`aquireNextImage` (`Swapchain::getActiveImageIndex`, a `uint32_t`), whether the
slot's command buffer is already recording (`CommandBuffer::isRunning`), and
whether `presentToQueue` returns `VK_SUCCESS`. -/
structure TickInput where
  maxFramesInFlight : Nat
  currentFrame : Nat
  imageIndex : Nat
  recorderRunning : Bool
  presentSuccess : Bool
deriving DecidableEq, Repr

/-- One past the largest `uint32_t` value. -/
def UINT32_MOD : Nat := 2 ^ 32

/-- The fence index `tick` waits on:
`(getActiveImageIndex() - 1) % getMaxFramesInFlight()` computed in C++ unsigned
32-bit arithmetic (`getActiveImageIndex()` is a `uint32_t`, so the `int` ring
length converts to `uint32_t`): the subtraction wraps modulo `2^32`. -/
def lastFenceIndex (imageIndex maxFramesInFlight : Nat) : Nat :=
  ((imageIndex + (UINT32_MOD - 1)) % UINT32_MOD) % maxFramesInFlight

/-- Embeds `WdeRenderPipelineInstance::tick`: the trace of operations in program
order, and either the advanced frame counter or the `WdeException` thrown when
presentation fails (in which case the counter is left unchanged). -/
def tick (i : TickInput) : List TickEvent × Except WdeError Nat :=
  let beginEvents :=
    if i.recorderRunning then [] else [TickEvent.beginRecorder i.currentFrame]
  let beforePresent :=
    TickEvent.acquireImage :: beginEvents ++
    [TickEvent.renderCallback i.currentFrame,
     TickEvent.fenceWait (lastFenceIndex i.imageIndex i.maxFramesInFlight),
     TickEvent.endRecorder i.currentFrame,
     TickEvent.submit i.imageIndex i.imageIndex i.imageIndex,
     TickEvent.present]
  if i.presentSuccess then
    (beforePresent ++ [TickEvent.advanceFrame ((i.currentFrame + 1) % i.maxFramesInFlight)],
     Except.ok ((i.currentFrame + 1) % i.maxFramesInFlight))
  else
    (beforePresent, Except.error WdeError.presentationFailed)

/-- Recognizes fence-wait events. -/
def TickEvent.isFenceWait : TickEvent → Bool
  | TickEvent.fenceWait _ => true
  | _ => false

/-- Recognizes submit events. -/
def TickEvent.isSubmit : TickEvent → Bool
  | TickEvent.submit _ _ _ => true
  | _ => false

/-- Recognizes frame-advance events. -/
def TickEvent.isAdvanceFrame : TickEvent → Bool
  | TickEvent.advanceFrame _ => true
  | _ => false

/-- The frame counter after `n` completed ticks starting from `_currentFrame = 0`,
each tick run with ring length `ring` (image index and recorder state do not
affect the counter; presentation succeeds, so the tick completes). -/
def frameAfterTicks (ring : Nat) : Nat → Nat
  | 0 => 0
  | n + 1 =>
    match (tick (TickInput.mk ring (frameAfterTicks ring n) 0 false true)).2 with
    | Except.ok f => f
    | Except.error _ => frameAfterTicks ring n

/-! ### Concrete demonstration data, used by witness theorems -/

/-- A concrete attachment (mirrors the depth attachment of example 02). -/
def demoAttachment : RenderAttachment :=
  RenderAttachment.mk 0 "Depth texture" AttachmentKind.depthStencil

/-- A concrete runtime pass with a single subpass writing attachments 0 and 1. -/
def demoPass : RenderPass :=
  RenderPass.mk [demoAttachment] [RenderSubPassStructure.mk 0 [] [0, 1]]

/-- A pipeline in the Outside state (no active pass, no active subpass). -/
def demoOutside : PipelineInstance := PipelineInstance.mk [demoPass] (-1) (-1)

/-- A pipeline in the InPass state (pass 0 active, no active subpass). -/
def demoInPass : PipelineInstance := PipelineInstance.mk [demoPass] 0 (-1)

/-- A pipeline in the InPassAndSubpass state (pass 0 and subpass 0 active). -/
def demoInSub : PipelineInstance := PipelineInstance.mk [demoPass] 0 0

/-! ### Helper lemmas -/

theorem getVec_neg {α : Type} (l : List α) (i : Int) (h : i < 0) : getVec l i = none := by
  simp [getVec, h]

theorem getVec_ofNat {α : Type} (l : List α) (n : Nat) : getVec l (Int.ofNat n) = l.get? n := by
  simp [getVec]

theorem getVec_coe {α : Type} (l : List α) (n : Nat) : getVec l (n : Int) = l.get? n := by
  simp [getVec]

theorem checkSubPasses_error_shape (p : Nat) :
    ∀ (k : Nat) (subs : List RenderSubPassStructure) (e : WdeError),
      checkSubPasses p k subs = Except.error e → ∃ j, e = WdeError.missingSubPass p j := by
  intro k subs
  induction subs generalizing k with
  | nil => intro e h; simp [checkSubPasses] at h
  | cons sub rest ih =>
    intro e h
    by_cases hk : k ≠ sub.subpassID
    · simp [checkSubPasses, hk] at h
      exact ⟨k, h.symm⟩
    · simp [checkSubPasses, hk] at h
      exact ih (k + 1) e h

theorem buildPasses_error_shape (att : List RenderAttachment) :
    ∀ (k : Nat) (strs : List RenderPassStructure) (e : WdeError),
      buildPasses att k strs = Except.error e →
      (∃ j, e = WdeError.missingPass j) ∨ ∃ j j2, e = WdeError.missingSubPass j j2 := by
  intro k strs
  induction strs generalizing k with
  | nil => intro e h; simp [buildPasses] at h
  | cons str rest ih =>
    intro e h
    by_cases hk : k ≠ str.passID
    · simp [buildPasses, hk] at h
      exact Or.inl ⟨k, h.symm⟩
    · simp only [buildPasses, hk, if_false, ite_false] at h
      cases hcs : checkSubPasses k 0 str.subPasses with
      | error e2 =>
        rw [hcs] at h
        simp at h
        rcases checkSubPasses_error_shape k 0 str.subPasses e2 hcs with ⟨j, hj⟩
        exact Or.inr ⟨k, j, h ▸ hj⟩
      | ok u =>
        rw [hcs] at h
        cases hbp : buildPasses att (k + 1) rest with
        | error e3 =>
          rw [hbp] at h
          simp at h
          exact h ▸ ih (k + 1) e3 hbp
        | ok ps =>
          rw [hbp] at h
          simp at h

theorem checkSubPasses_ok (p : Nat) :
    ∀ (k : Nat) (subs : List RenderSubPassStructure),
      subs.map RenderSubPassStructure.subpassID = List.range' k subs.length →
      checkSubPasses p k subs = Except.ok () := by
  intro k subs
  induction subs generalizing k with
  | nil => intro _; simp [checkSubPasses]
  | cons sub rest ih =>
    intro h
    simp only [List.map_cons, List.length_cons, List.range'_succ, List.cons.injEq] at h
    obtain ⟨h1, h2⟩ := h
    subst h1
    simp [checkSubPasses]
    exact ih (sub.subpassID + 1) h2

theorem checkSubPasses_gap (p : Nat) :
    ∀ (k : Nat) (spre : List RenderSubPassStructure) (sub : RenderSubPassStructure)
      (spost : List RenderSubPassStructure),
      spre.map RenderSubPassStructure.subpassID = List.range' k spre.length →
      sub.subpassID ≠ k + spre.length →
      checkSubPasses p k (spre ++ sub :: spost) =
        Except.error (WdeError.missingSubPass p (k + spre.length)) := by
  intro k spre
  induction spre generalizing k with
  | nil =>
    intro sub spost _ hne
    simp only [List.length_nil, Nat.add_zero] at hne
    have hne2 : k ≠ sub.subpassID := fun hh => hne hh.symm
    simp [checkSubPasses, hne2]
  | cons s rest ih =>
    intro sub spost h hne
    simp only [List.map_cons, List.length_cons, List.range'_succ, List.cons.injEq] at h
    obtain ⟨h1, h2⟩ := h
    subst h1
    simp only [List.length_cons] at hne
    have heq := ih (s.subpassID + 1) sub spost h2 (by omega)
    have harith : s.subpassID + 1 + rest.length = s.subpassID + (rest.length + 1) := by omega
    rw [harith] at heq
    simp [checkSubPasses, heq]

/-- The subpass ids declared inside a pass are exactly `0, 1, ..., m-1` in order. -/
def SubPassIDsContiguous (str : RenderPassStructure) : Prop :=
  str.subPasses.map RenderSubPassStructure.subpassID = List.range str.subPasses.length

instance (str : RenderPassStructure) : Decidable (SubPassIDsContiguous str) := by
  unfold SubPassIDsContiguous; infer_instance

/-- The pass ids declared in a structure list are exactly `0, 1, ..., n-1` in order. -/
def PassIDsContiguous (strs : List RenderPassStructure) : Prop :=
  strs.map RenderPassStructure.passID = List.range strs.length

instance (strs : List RenderPassStructure) : Decidable (PassIDsContiguous strs) := by
  unfold PassIDsContiguous; infer_instance

theorem checkSubPasses_contiguous (p : Nat) (str : RenderPassStructure)
    (h : SubPassIDsContiguous str) : checkSubPasses p 0 str.subPasses = Except.ok () := by
  apply checkSubPasses_ok
  rw [SubPassIDsContiguous] at h
  rw [h]
  exact List.range_eq_range' str.subPasses.length

theorem buildPasses_ok (att : List RenderAttachment) :
    ∀ (k : Nat) (strs : List RenderPassStructure),
      strs.map RenderPassStructure.passID = List.range' k strs.length →
      (∀ str ∈ strs, SubPassIDsContiguous str) →
      buildPasses att k strs =
        Except.ok (strs.map fun str => RenderPass.mk att str.subPasses) := by
  intro k strs
  induction strs generalizing k with
  | nil => intro _ _; simp [buildPasses]
  | cons str rest ih =>
    intro h hsub
    simp only [List.map_cons, List.length_cons, List.range'_succ, List.cons.injEq] at h
    obtain ⟨h1, h2⟩ := h
    subst h1
    have hcs := checkSubPasses_contiguous str.passID str (hsub str (by simp))
    have hrest := ih (str.passID + 1) h2 (fun s hs => hsub s (by simp [hs]))
    simp [buildPasses, hcs, hrest]

theorem buildPasses_gap_pass (att : List RenderAttachment) :
    ∀ (k : Nat) (pre : List RenderPassStructure) (str : RenderPassStructure)
      (post : List RenderPassStructure),
      pre.map RenderPassStructure.passID = List.range' k pre.length →
      (∀ s ∈ pre, SubPassIDsContiguous s) →
      str.passID ≠ k + pre.length →
      buildPasses att k (pre ++ str :: post) =
        Except.error (WdeError.missingPass (k + pre.length)) := by
  intro k pre
  induction pre generalizing k with
  | nil =>
    intro str post _ _ hne
    simp only [List.length_nil, Nat.add_zero] at hne
    have hne2 : k ≠ str.passID := fun hh => hne hh.symm
    simp [buildPasses, hne2]
  | cons s rest ih =>
    intro str post h hsub hne
    simp only [List.map_cons, List.length_cons, List.range'_succ, List.cons.injEq] at h
    obtain ⟨h1, h2⟩ := h
    subst h1
    simp only [List.length_cons] at hne
    have hcs := checkSubPasses_contiguous s.passID s (hsub s (by simp))
    have heq := ih (s.passID + 1) str post h2 (fun x hx => hsub x (by simp [hx])) (by omega)
    have harith : s.passID + 1 + rest.length = s.passID + (rest.length + 1) := by omega
    rw [harith] at heq
    simp [buildPasses, hcs, heq]

theorem buildPasses_gap_sub (att : List RenderAttachment) :
    ∀ (k : Nat) (pre : List RenderPassStructure) (str : RenderPassStructure)
      (post : List RenderPassStructure) (spre : List RenderSubPassStructure)
      (sub : RenderSubPassStructure) (spost : List RenderSubPassStructure),
      pre.map RenderPassStructure.passID = List.range' k pre.length →
      (∀ s ∈ pre, SubPassIDsContiguous s) →
      str.passID = k + pre.length →
      str.subPasses = spre ++ sub :: spost →
      spre.map RenderSubPassStructure.subpassID = List.range spre.length →
      sub.subpassID ≠ spre.length →
      buildPasses att k (pre ++ str :: post) =
        Except.error (WdeError.missingSubPass (k + pre.length) spre.length) := by
  intro k pre
  induction pre generalizing k with
  | nil =>
    intro str post spre sub spost _ _ hid hsplit hcontig hne
    simp only [List.length_nil, Nat.add_zero] at hid
    have hcs : checkSubPasses k 0 str.subPasses =
        Except.error (WdeError.missingSubPass k spre.length) := by
      rw [hsplit]
      have := checkSubPasses_gap k 0 spre sub spost
        (List.range_eq_range' spre.length ▸ hcontig) (by omega)
      simpa using this
    have hk : ¬ k ≠ str.passID := by omega
    simp [buildPasses, hk, hcs]
  | cons s rest ih =>
    intro str post spre sub spost h hsub hid hsplit hcontig hne
    simp only [List.map_cons, List.length_cons, List.range'_succ, List.cons.injEq] at h
    obtain ⟨h1, h2⟩ := h
    subst h1
    simp only [List.length_cons] at hid
    have hcs := checkSubPasses_contiguous s.passID s (hsub s (by simp))
    have heq := ih (s.passID + 1) str post spre sub spost h2
      (fun x hx => hsub x (by simp [hx])) (by omega) hsplit hcontig hne
    have harith : s.passID + 1 + rest.length = s.passID + (rest.length + 1) := by omega
    rw [harith] at heq
    simp [buildPasses, hcs, heq]

theorem buildPasses_ne_missingAttachments (att : List RenderAttachment)
    (k : Nat) (strs : List RenderPassStructure) :
    buildPasses att k strs ≠ Except.error WdeError.missingAttachments := by
  intro h
  rcases buildPasses_error_shape att k strs WdeError.missingAttachments h with ⟨j, hj⟩ | ⟨j, j2, hj⟩
  · exact WdeError.noConfusion hj
  · exact WdeError.noConfusion hj

theorem setStructure_of_ne_nil (att : List RenderAttachment)
    (strs : List RenderPassStructure) (h : att ≠ []) :
    setStructure att strs = buildPasses att 0 strs := by
  cases att with
  | nil => exact absurd rfl h
  | cons a as => simp [setStructure]

/-! ### Claim theorems -/

/-- C3: structure declaration walks the supplied passes in order. With a declared
attachment set, (1) if the pass ids are exactly `0..n-1` and the subpass ids
within each pass are exactly `0..m-1`, construction succeeds and materializes
exactly one runtime render pass per entry, in order, carrying the declared
subpass list (hence the declared subpass count); (2) if the pass at position `i`
(after a well-formed prefix) declares an id different from `i`, it fails with the
structure-gap error naming the expected id `i`; (3) if the subpass at position
`j` of the pass at position `i` (after well-formed predecessors) declares an id
different from `j`, it fails with the structure-gap error naming the pass id `i`
and the expected subpass id `j`. -/
theorem setStructure_spec :
    (∀ (att : List RenderAttachment) (strs : List RenderPassStructure),
      att ≠ [] → PassIDsContiguous strs →
      (∀ str ∈ strs, SubPassIDsContiguous str) →
      setStructure att strs =
        Except.ok (strs.map fun str => RenderPass.mk att str.subPasses)) ∧
    (∀ (att : List RenderAttachment) (pre : List RenderPassStructure)
        (str : RenderPassStructure) (post : List RenderPassStructure),
      att ≠ [] → PassIDsContiguous pre → (∀ s ∈ pre, SubPassIDsContiguous s) →
      str.passID ≠ pre.length →
      setStructure att (pre ++ str :: post) =
        Except.error (WdeError.missingPass pre.length)) ∧
    (∀ (att : List RenderAttachment) (pre : List RenderPassStructure)
        (str : RenderPassStructure) (post : List RenderPassStructure)
        (spre : List RenderSubPassStructure) (sub : RenderSubPassStructure)
        (spost : List RenderSubPassStructure),
      att ≠ [] → PassIDsContiguous pre → (∀ s ∈ pre, SubPassIDsContiguous s) →
      str.passID = pre.length →
      str.subPasses = spre ++ sub :: spost →
      spre.map RenderSubPassStructure.subpassID = List.range spre.length →
      sub.subpassID ≠ spre.length →
      setStructure att (pre ++ str :: post) =
        Except.error (WdeError.missingSubPass pre.length spre.length)) := by
  refine ⟨?_, ?_, ?_⟩
  · intro att strs hatt hpass hsub
    rw [setStructure_of_ne_nil att strs hatt]
    apply buildPasses_ok
    · rw [PassIDsContiguous] at hpass
      rw [hpass]
      exact List.range_eq_range' strs.length
    · exact hsub
  · intro att pre str post hatt hpass hsub hne
    rw [setStructure_of_ne_nil att _ hatt]
    have h := buildPasses_gap_pass att 0 pre str post
      (by rw [PassIDsContiguous] at hpass; rw [hpass]; exact List.range_eq_range' pre.length)
      hsub (by omega)
    simpa using h
  · intro att pre str post spre sub spost hatt hpass hsub hid hsplit hcontig hne
    rw [setStructure_of_ne_nil att _ hatt]
    have h := buildPasses_gap_sub att 0 pre str post spre sub spost
      (by rw [PassIDsContiguous] at hpass; rw [hpass]; exact List.range_eq_range' pre.length)
      hsub (by omega) hsplit hcontig hne
    simpa using h

/-- Witness for C3 at concrete inputs: a contiguous structure builds its runtime
pass; passes declared `[0, 2]` fail naming the missing pass id `1`; subpasses
declared `[0, 2]` inside pass `0` fail naming pass `0` and subpass id `1`. -/
theorem setStructure_spec_witness :
    setStructure [demoAttachment]
        [RenderPassStructure.mk 0 [RenderSubPassStructure.mk 0 [] [0, 1]]] =
      Except.ok [demoPass] ∧
    setStructure [demoAttachment]
        [RenderPassStructure.mk 0 [], RenderPassStructure.mk 2 []] =
      Except.error (WdeError.missingPass 1) ∧
    setStructure [demoAttachment]
        [RenderPassStructure.mk 0
          [RenderSubPassStructure.mk 0 [] [], RenderSubPassStructure.mk 2 [] []]] =
      Except.error (WdeError.missingSubPass 0 1) := by
  refine ⟨?_, ?_, ?_⟩
  · exact setStructure_spec.1 [demoAttachment] _ (by decide) (by decide) (by decide)
  · exact setStructure_spec.2.1 [demoAttachment] [RenderPassStructure.mk 0 []]
      (RenderPassStructure.mk 2 []) [] (by decide) (by decide) (by decide) (by decide)
  · exact setStructure_spec.2.2 [demoAttachment] []
      (RenderPassStructure.mk 0
        [RenderSubPassStructure.mk 0 [] [], RenderSubPassStructure.mk 2 [] []]) []
      [RenderSubPassStructure.mk 0 [] []] (RenderSubPassStructure.mk 2 [] []) []
      (by decide) (by decide) (by decide) (by decide) rfl (by decide) (by decide)

/-- C9: graph construction fails with the missing-attachments error exactly when
the structure is declared while the attachment set is empty; with a non-empty
attachment set, `setStructure` proceeds directly to the pass-id validation walk
(`buildPasses`) and never raises the missing-attachments error. -/
theorem setStructure_missingAttachments_iff (att : List RenderAttachment)
    (strs : List RenderPassStructure) :
    (setStructure att strs = Except.error WdeError.missingAttachments ↔ att = []) ∧
    (att ≠ [] → setStructure att strs = buildPasses att 0 strs) := by
  constructor
  · constructor
    · intro h
      by_contra hne
      rw [setStructure_of_ne_nil att strs hne] at h
      exact buildPasses_ne_missingAttachments att 0 strs h
    · intro h
      subst h
      simp [setStructure]
  · exact setStructure_of_ne_nil att strs

/-- Witness for C9: the empty attachment set is rejected, a singleton attachment
set reaches pass validation. -/
theorem setStructure_missingAttachments_iff_witness :
    setStructure [] [RenderPassStructure.mk 0 []] =
      Except.error WdeError.missingAttachments ∧
    setStructure [demoAttachment] [RenderPassStructure.mk 0 []] =
      buildPasses [demoAttachment] 0 [RenderPassStructure.mk 0 []] := by
  constructor
  · exact (setStructure_missingAttachments_iff [] [RenderPassStructure.mk 0 []]).1.mpr rfl
  · exact (setStructure_missingAttachments_iff [demoAttachment]
      [RenderPassStructure.mk 0 []]).2 (by decide)

/-- C4: every completed tick (one whose presentation succeeds) advances the frame
counter to `(frame + 1) % ringLength` and performs exactly one frame-advance,
carrying that value; iterating completed ticks with ring length 3 from frame 0
yields the frame sequence `0, 1, 2, 0, 1, 2, ...` (`n`-th tick uses `n % 3`). -/
theorem tick_advancesFrame :
    (∀ i : TickInput, i.presentSuccess = true →
      (tick i).2 = Except.ok ((i.currentFrame + 1) % i.maxFramesInFlight) ∧
      (tick i).1.filter TickEvent.isAdvanceFrame =
        [TickEvent.advanceFrame ((i.currentFrame + 1) % i.maxFramesInFlight)]) ∧
    (∀ n : Nat, frameAfterTicks 3 n = n % 3) := by
  constructor
  · intro i hp
    obtain ⟨ring, frame, img, rec, pres⟩ := i
    simp only at hp
    subst hp
    cases rec <;>
      simp [tick, TickEvent.isAdvanceFrame, TickEvent.isFenceWait, List.filter]
  · intro n
    induction n with
    | zero => rfl
    | succ n ih =>
      rw [frameAfterTicks, ih]
      simp [tick]

/-- Witness for C4: a completed tick at frame 2 with ring 3 wraps to frame 0, and
the sixth frame in the ring-3 sequence is `5 % 3 = 2`. -/
theorem tick_advancesFrame_witness :
    (tick (TickInput.mk 3 2 0 false true)).2 = Except.ok 0 ∧
    (tick (TickInput.mk 3 2 0 false true)).1.filter TickEvent.isAdvanceFrame =
      [TickEvent.advanceFrame 0] ∧
    frameAfterTicks 3 5 = 5 % 3 := by
  have h := tick_advancesFrame
  exact ⟨(h.1 (TickInput.mk 3 2 0 false true) rfl).1,
    (h.1 (TickInput.mk 3 2 0 false true) rfl).2, h.2 5⟩

/-- C5: for every state of the pass/subpass machine, `beginRenderPass index`
fails with the already-active error (naming the attempted and the active pass)
if a pass is already active; otherwise fails with the out-of-range error if
`index` is not below the number of runtime passes; otherwise transitions to
InPass with `index` active and starts that pass's runtime object. In particular,
from any Outside state with at least one pass, `beginRenderPass 0` twice in a
row fails on the second call with the already-active error. -/
theorem beginRenderPass_spec (s : PipelineInstance) (index : Nat) :
    (s.currentRenderPassID ≠ -1 →
      beginRenderPass s index =
        some (Except.error (WdeError.passAlreadyActive index s.currentRenderPassID))) ∧
    (s.currentRenderPassID = -1 → s.passes.length ≤ index →
      beginRenderPass s index = some (Except.error (WdeError.passNotCreated index))) ∧
    (s.currentRenderPassID = -1 → index < s.passes.length →
      beginRenderPass s index =
        some (Except.ok ({ s with currentRenderPassID := Int.ofNat index },
          [PassEvent.started (Int.ofNat index)]))) ∧
    (s.currentRenderPassID = -1 → 0 < s.passes.length →
      ∃ s1 ev, beginRenderPass s 0 = some (Except.ok (s1, ev)) ∧
        beginRenderPass s1 0 =
          some (Except.error (WdeError.passAlreadyActive 0 0))) := by
  have hok : ∀ j : Nat, s.currentRenderPassID = -1 → j < s.passes.length →
      beginRenderPass s j =
        some (Except.ok ({ s with currentRenderPassID := Int.ofNat j },
          [PassEvent.started (Int.ofNat j)])) := by
    intro j h hlt
    have hget : s.passes[j]? = some (s.passes.get ⟨j, hlt⟩) := by
      simp [List.get?_eq_get hlt]
    simp [beginRenderPass, h, Nat.not_le.mpr hlt, getVec_ofNat, getVec_coe, hget]
  refine ⟨?_, ?_, hok index, ?_⟩
  · intro h
    simp [beginRenderPass, h]
  · intro h hle
    simp [beginRenderPass, h, hle]
  · intro h hpos
    refine ⟨{ s with currentRenderPassID := Int.ofNat 0 },
      [PassEvent.started (Int.ofNat 0)], hok 0 h hpos, ?_⟩
    simp [beginRenderPass]

/-- Witness for C5: beginning pass 0 from the Outside demo state succeeds, and
beginning pass 0 again from the resulting state fails with the already-active
error; a far out-of-range id is rejected. -/
theorem beginRenderPass_spec_witness :
    beginRenderPass demoOutside 0 =
      some (Except.ok (demoInPass, [PassEvent.started 0])) ∧
    beginRenderPass demoInPass 0 =
      some (Except.error (WdeError.passAlreadyActive 0 0)) ∧
    beginRenderPass demoOutside 5 =
      some (Except.error (WdeError.passNotCreated 5)) := by
  refine ⟨?_, ?_, ?_⟩
  · exact (beginRenderPass_spec demoOutside 0).2.2.1 rfl (by decide)
  · exact (beginRenderPass_spec demoInPass 0).1 (by decide)
  · exact (beginRenderPass_spec demoOutside 5).2.1 rfl (by decide)

/-- C10: `endRenderPass` performs no check that a pass is active: called in the
Outside state (both cursors `-1`) it raises no error; instead the runtime pass
list is indexed at position `-1`, so the total embedding returns `none` (the
operation has no defined result — the C++ behaviour is undefined). -/
theorem endRenderPass_outside_undefined (s : PipelineInstance)
    (hp : s.currentRenderPassID = -1) (hs : s.currentRenderSubPassID = -1) :
    endRenderPass s = none ∧ ∀ e, endRenderPass s ≠ some (Except.error e) := by
  have h1 : endRenderPass s = none := by
    simp [endRenderPass, hp, hs, getVec]
  exact ⟨h1, fun e he => by rw [h1] at he; exact Option.noConfusion he⟩

/-- Witness for C10: in the Outside demo state, `endRenderPass` has no defined
result and in particular raises no error. -/
theorem endRenderPass_outside_undefined_witness :
    demoOutside.currentRenderPassID = -1 ∧ endRenderPass demoOutside = none := by
  exact ⟨rfl, (endRenderPass_outside_undefined demoOutside rfl rfl).1⟩

/-- C6: for every state of the pass/subpass machine, `beginRenderSubPass index`
fails with the no-active-pass error if no pass is active; otherwise fails with
the already-active error if a subpass is already active; otherwise (with the
active pass resolving to the runtime pass `p`) fails with the out-of-range error
if `index` is not below `p`'s subpass count, and otherwise transitions InPass to
InPassAndSubpass with `index` as the active subpass, starting the subpass on the
runtime pass. -/
theorem beginRenderSubPass_spec (s : PipelineInstance) (index : Nat) :
    (s.currentRenderPassID = -1 →
      beginRenderSubPass s index =
        some (Except.error (WdeError.subPassOutsidePass index))) ∧
    (s.currentRenderPassID ≠ -1 → s.currentRenderSubPassID ≠ -1 →
      beginRenderSubPass s index =
        some (Except.error (WdeError.subPassAlreadyActive index
          s.currentRenderSubPassID s.currentRenderPassID))) ∧
    (∀ p : RenderPass, s.currentRenderPassID ≠ -1 → s.currentRenderSubPassID = -1 →
      getVec s.passes s.currentRenderPassID = some p →
      ((p.getSubPassesCount ≤ index →
        beginRenderSubPass s index =
          some (Except.error (WdeError.subPassNotCreated index))) ∧
       (index < p.getSubPassesCount →
        beginRenderSubPass s index =
          some (Except.ok ({ s with currentRenderSubPassID := Int.ofNat index },
            [PassEvent.subStarted s.currentRenderPassID index]))))) := by
  refine ⟨?_, ?_, ?_⟩
  · intro h
    simp [beginRenderSubPass, h]
  · intro h1 h2
    simp [beginRenderSubPass, h1, h2]
  · intro p h1 h2 hget
    constructor
    · intro hle
      simp [beginRenderSubPass, h1, h2, hget, hle]
    · intro hlt
      simp [beginRenderSubPass, h1, h2, hget, Nat.not_le.mpr hlt]

/-- Witness for C6: from the demo states (one pass, one subpass), the four
branches occur at concrete calls; in particular `beginRenderSubPass 5` is
rejected as out of range since the pass declares a single subpass. -/
theorem beginRenderSubPass_spec_witness :
    beginRenderSubPass demoOutside 0 =
      some (Except.error (WdeError.subPassOutsidePass 0)) ∧
    beginRenderSubPass demoInSub 0 =
      some (Except.error (WdeError.subPassAlreadyActive 0 0 0)) ∧
    beginRenderSubPass demoInPass 5 =
      some (Except.error (WdeError.subPassNotCreated 5)) ∧
    beginRenderSubPass demoInPass 0 =
      some (Except.ok (demoInSub, [PassEvent.subStarted 0 0])) := by
  refine ⟨?_, ?_, ?_, ?_⟩
  · exact (beginRenderSubPass_spec demoOutside 0).1 rfl
  · exact (beginRenderSubPass_spec demoInSub 0).2.1 (by decide) (by decide)
  · exact ((beginRenderSubPass_spec demoInPass 5).2.2 demoPass (by decide) rfl
      (by decide)).1 (by decide)
  · exact ((beginRenderSubPass_spec demoInPass 0).2.2 demoPass (by decide) rfl
      (by decide)).2 (by decide)

/-- C7: for every state whose active pass resolves to a runtime pass,
`endRenderPass` fails (and then with the subpass-still-active error) if and only
if a subpass is active; with no active subpass it ends the runtime pass and
transitions to Outside. After a successful `endRenderSubPass`, the previously
failing `endRenderPass` succeeds. -/
theorem endRenderPass_spec (s : PipelineInstance) (p : RenderPass)
    (hget : getVec s.passes s.currentRenderPassID = some p) :
    ((∃ e, endRenderPass s = some (Except.error e)) ↔ s.currentRenderSubPassID ≠ -1) ∧
    (s.currentRenderSubPassID ≠ -1 →
      endRenderPass s = some (Except.error
        (WdeError.subPassStillActive s.currentRenderPassID s.currentRenderSubPassID))) ∧
    (s.currentRenderSubPassID = -1 →
      endRenderPass s = some (Except.ok ({ s with currentRenderPassID := -1 },
        [PassEvent.ended s.currentRenderPassID]))) ∧
    (s.currentRenderSubPassID ≠ -1 →
      endRenderSubPass s = some (Except.ok ({ s with currentRenderSubPassID := -1 },
        [PassEvent.subEnded s.currentRenderPassID s.currentRenderSubPassID])) ∧
      endRenderPass { s with currentRenderSubPassID := -1 } =
        some (Except.ok ({ s with currentRenderPassID := -1, currentRenderSubPassID := -1 },
          [PassEvent.ended s.currentRenderPassID]))) := by
  have hpass : s.currentRenderPassID ≠ -1 := by
    intro hh
    rw [hh, getVec_neg s.passes (-1) (by decide)] at hget
    exact Option.noConfusion hget
  have herr : s.currentRenderSubPassID ≠ -1 →
      endRenderPass s = some (Except.error
        (WdeError.subPassStillActive s.currentRenderPassID s.currentRenderSubPassID)) := by
    intro h
    simp [endRenderPass, h]
  have hok : s.currentRenderSubPassID = -1 →
      endRenderPass s = some (Except.ok ({ s with currentRenderPassID := -1 },
        [PassEvent.ended s.currentRenderPassID])) := by
    intro h
    simp [endRenderPass, h, hget]
  refine ⟨?_, herr, hok, ?_⟩
  · constructor
    · intro ⟨e, he⟩ hsub
      rw [hok hsub] at he
      simp at he
    · intro h
      exact ⟨WdeError.subPassStillActive s.currentRenderPassID s.currentRenderSubPassID, herr h⟩
  · intro h
    constructor
    · simp [endRenderSubPass, hpass, hget]
    · simp [endRenderPass, hget]

/-- Witness for C7: with pass 0 and subpass 0 active, `endRenderPass` fails with
the subpass-still-active error; after `endRenderSubPass` the same call succeeds
and returns to the Outside state. -/
theorem endRenderPass_spec_witness :
    endRenderPass demoInSub =
      some (Except.error (WdeError.subPassStillActive 0 0)) ∧
    endRenderPass demoInPass =
      some (Except.ok (demoOutside, [PassEvent.ended 0])) ∧
    endRenderSubPass demoInSub =
      some (Except.ok (demoInPass, [PassEvent.subEnded 0 0])) := by
  refine ⟨?_, ?_, ?_⟩
  · exact (endRenderPass_spec demoInSub demoPass (by decide)).2.1 (by decide)
  · exact (endRenderPass_spec demoInPass demoPass (by decide)).2.2.1 rfl
  · exact ((endRenderPass_spec demoInSub demoPass (by decide)).2.2.2 (by decide)).1

/-- C8: `endRenderSubPass` raises an error if and only if no pass is active, and
that error is the no-active-pass kind (the single error path that also covers
the no-subpass-active case); whenever a pass is active — even with no active
subpass — it raises no error and leaves the state InPass with no active subpass
(the subpass-end call on the runtime pass is issued with whatever the subpass
cursor holds, possibly `-1`). -/
theorem endRenderSubPass_spec (s : PipelineInstance) :
    (s.currentRenderPassID = -1 →
      endRenderSubPass s =
        some (Except.error (WdeError.endSubPassOutsidePass s.currentRenderSubPassID))) ∧
    (∀ p : RenderPass, getVec s.passes s.currentRenderPassID = some p →
      endRenderSubPass s = some (Except.ok ({ s with currentRenderSubPassID := -1 },
        [PassEvent.subEnded s.currentRenderPassID s.currentRenderSubPassID]))) ∧
    ((s.currentRenderPassID = -1 ∨ ∃ p, getVec s.passes s.currentRenderPassID = some p) →
      ((∃ e, endRenderSubPass s = some (Except.error e)) ↔ s.currentRenderPassID = -1)) := by
  have hout : s.currentRenderPassID = -1 →
      endRenderSubPass s =
        some (Except.error (WdeError.endSubPassOutsidePass s.currentRenderSubPassID)) := by
    intro h
    simp [endRenderSubPass, h]
  have hok : ∀ p : RenderPass, getVec s.passes s.currentRenderPassID = some p →
      endRenderSubPass s = some (Except.ok ({ s with currentRenderSubPassID := -1 },
        [PassEvent.subEnded s.currentRenderPassID s.currentRenderSubPassID])) := by
    intro p hget
    have hpass : s.currentRenderPassID ≠ -1 := by
      intro hh
      rw [hh, getVec_neg s.passes (-1) (by decide)] at hget
      exact Option.noConfusion hget
    simp [endRenderSubPass, hpass, hget]
  refine ⟨hout, hok, ?_⟩
  intro hvalid
  constructor
  · intro ⟨e, he⟩
    rcases hvalid with h | ⟨p, hget⟩
    · exact h
    · rw [hok p hget] at he
      simp at he
  · intro h
    exact ⟨WdeError.endSubPassOutsidePass s.currentRenderSubPassID, hout h⟩

/-- Witness for C8: outside a pass, `endRenderSubPass` fails with the
no-active-pass kind of error; with pass 0 active and no active subpass it
succeeds, issuing the runtime subpass-end with the cursor value `-1`; with
subpass 0 active it returns to InPass. -/
theorem endRenderSubPass_spec_witness :
    endRenderSubPass demoOutside =
      some (Except.error (WdeError.endSubPassOutsidePass (-1))) ∧
    endRenderSubPass demoInPass =
      some (Except.ok (demoInPass, [PassEvent.subEnded 0 (-1)])) ∧
    endRenderSubPass demoInSub =
      some (Except.ok (demoInPass, [PassEvent.subEnded 0 0])) := by
  refine ⟨?_, ?_, ?_⟩
  · exact (endRenderSubPass_spec demoOutside).1 rfl
  · exact (endRenderSubPass_spec demoInPass).2.1 demoPass (by decide)
  · exact (endRenderSubPass_spec demoInSub).2.1 demoPass (by decide)

/-- C1 counterexample: in a concrete tick (ring length 3, current frame slot 0,
acquired image index 2, recorder idle, presentation succeeding), the orchestrator
never waits on the completion fence of the current frame slot (index 0): the
single fence wait targets index `(2 - 1) % 3 = 1`, and it occurs at trace
position 3, after the slot's command recorder was begun at position 1 — refuting
both that the wait is on the slot's fence and that it happens before the
recorder is reused. -/
theorem tick_fenceWait_cex :
    TickEvent.fenceWait 0 ∉ (tick (TickInput.mk 3 0 2 false true)).1 ∧
    (tick (TickInput.mk 3 0 2 false true)).1 =
      [TickEvent.acquireImage, TickEvent.beginRecorder 0, TickEvent.renderCallback 0,
       TickEvent.fenceWait 1, TickEvent.endRecorder 0, TickEvent.submit 2 2 2,
       TickEvent.present, TickEvent.advanceFrame 1] := by
  decide

/-- C1 (amended): for every tick with a positive ring length, the orchestrator
blocks on exactly one fence: the in-flight fence at index
`(imageIndex - 1) % maxFramesInFlight` (computed in unsigned 32-bit arithmetic),
derived from the acquired image index rather than from the current frame slot;
this wait happens after the slot's command recorder is begun (when it was not
already recording) and after the render callback has recorded, and before
end-of-recording and submission. -/
theorem tick_fenceWait_spec (i : TickInput) (hring : 0 < i.maxFramesInFlight) :
    (tick i).1.filter TickEvent.isFenceWait =
      [TickEvent.fenceWait (lastFenceIndex i.imageIndex i.maxFramesInFlight)] ∧
    lastFenceIndex i.imageIndex i.maxFramesInFlight < i.maxFramesInFlight ∧
    ∃ pre post,
      (tick i).1 =
        pre ++ TickEvent.fenceWait (lastFenceIndex i.imageIndex i.maxFramesInFlight) :: post ∧
      TickEvent.renderCallback i.currentFrame ∈ pre ∧
      (i.recorderRunning = false → TickEvent.beginRecorder i.currentFrame ∈ pre) ∧
      TickEvent.endRecorder i.currentFrame ∈ post ∧
      TickEvent.submit i.imageIndex i.imageIndex i.imageIndex ∈ post := by
  obtain ⟨ring, frame, img, rec, pres⟩ := i
  refine ⟨?_, ?_, ?_⟩
  · cases rec <;> cases pres <;> simp [tick, TickEvent.isFenceWait, List.filter]
  · exact Nat.mod_lt _ hring
  · refine ⟨TickEvent.acquireImage ::
      (if rec then [] else [TickEvent.beginRecorder frame]) ++ [TickEvent.renderCallback frame],
      [TickEvent.endRecorder frame, TickEvent.submit img img img, TickEvent.present] ++
      (if pres then [TickEvent.advanceFrame ((frame + 1) % ring)] else []),
      ?_, ?_, ?_, ?_, ?_⟩ <;> cases rec <;> cases pres <;> simp [tick]

/-- Witness for C1 (amended) at ring 3, frame 0, image 2, idle recorder: the
unique fence wait targets index 1. -/
theorem tick_fenceWait_spec_witness :
    0 < (3 : Nat) ∧
    ((tick (TickInput.mk 3 0 2 false true)).1.filter TickEvent.isFenceWait =
      [TickEvent.fenceWait (lastFenceIndex 2 3)] ∧
    lastFenceIndex 2 3 < 3 ∧
    ∃ pre post,
      (tick (TickInput.mk 3 0 2 false true)).1 =
        pre ++ TickEvent.fenceWait (lastFenceIndex 2 3) :: post ∧
      TickEvent.renderCallback 0 ∈ pre ∧
      (false = false → TickEvent.beginRecorder 0 ∈ pre) ∧
      TickEvent.endRecorder 0 ∈ post ∧
      TickEvent.submit 2 2 2 ∈ post) :=
  ⟨by decide, tick_fenceWait_spec (TickInput.mk 3 0 2 false true) (by decide)⟩

/-- C2 counterexample: in a concrete tick (ring 3, current frame slot 0,
acquired image index 1), the completion fence passed to submit is the one at the
image index 1, not the frame slot's fence at index 0: the submit event carries
fence index 1 ≠ 0, and no submit with fence index 0 occurs. -/
theorem tick_submit_cex :
    (tick (TickInput.mk 3 0 1 false true)).1.filter TickEvent.isSubmit =
      [TickEvent.submit 1 1 1] ∧
    TickEvent.submit 0 1 1 ∉ (tick (TickInput.mk 3 0 1 false true)).1 ∧
    (1 : Nat) ≠ 0 := by
  decide

/-- C2 (amended): when tick submits the recorded command buffer, the completion
fence, the image-available wait signal, and the render-finished signal passed to
submit are all three indexed by the image index returned by the Presentation
Surface (not by the frame slot index). -/
theorem tick_submit_spec (i : TickInput) :
    (tick i).1.filter TickEvent.isSubmit =
      [TickEvent.submit i.imageIndex i.imageIndex i.imageIndex] := by
  obtain ⟨ring, frame, img, rec, pres⟩ := i
  cases rec <;> cases pres <;> simp [tick, TickEvent.isSubmit, List.filter]

end WaterDropEngine
